import Mathlib

set_option autoImplicit false

/-!
Shallow embedding of the Vulkan vTensor coherent tensor view and its host
access Future protocol, from the vTensor header (src/unnamed/part_000) and
Persistent.h.  Pure data and explicit state passing stand in for the C++
object state; pointers are modelled as Option values.
-/

namespace ops

/-- The three physical representations named by the dirty bitfield of the
header at lines 178 to 182: device image, device buffer, host staging
buffer. -/
inductive Rep
  | image
  | buffer
  | staging
  deriving DecidableEq, Fintype

/-- The mutable dirty bitfield of vTensor, lines 178 to 182: one staleness
bit per representation. -/
structure DirtyFlags where
  image : Bool
  buffer : Bool
  staging : Bool
  deriving DecidableEq, Fintype

/-- Reads the bit of one representation. -/
def DirtyFlags.get (d : DirtyFlags) : Rep → Bool
  | Rep.image => d.image
  | Rep.buffer => d.buffer
  | Rep.staging => d.staging

/-- Writes the bit of one representation. -/
def DirtyFlags.setRep (d : DirtyFlags) (r : Rep) (b : Bool) : DirtyFlags :=
  match r with
  | Rep.image => ⟨b, d.buffer, d.staging⟩
  | Rep.buffer => ⟨d.image, b, d.staging⟩
  | Rep.staging => ⟨d.image, d.buffer, b⟩

/-- Number of representations currently marked stale. -/
def countDirty (d : DirtyFlags) : Nat :=
  (cond d.image 1 0) + (cond d.buffer 1 0) + (cond d.staging 1 0)

/-- The two sibling representations of a target representation. -/
def siblings : Rep → Rep × Rep
  | Rep.image => (Rep.buffer, Rep.staging)
  | Rep.buffer => (Rep.image, Rep.staging)
  | Rep.staging => (Rep.image, Rep.buffer)

/-- Access flag set, the api Resource Memory Access Flags bitset used by
the header (a Read bit and a Write bit, combined freely). -/
structure Access.Flags where
  read : Bool
  write : Bool
  deriving DecidableEq, Fintype

/-- The Read flag alone. -/
def Access.Read : Access.Flags := ⟨true, false⟩

/-- The Write flag alone. -/
def Access.Write : Access.Flags := ⟨false, true⟩

/-- Both flags, the bitwise union of Read and Write. -/
def Access.ReadWrite : Access.Flags := ⟨true, true⟩

/-- Subset order on access flag sets: every flag of a is also in b. -/
def Access.Flags.subset (a b : Access.Flags) : Bool :=
  (!a.read || b.read) && (!a.write || b.write)

/-- Errors surfaced by the embedded operations: InvalidStateError is the
TORCH_CHECK failure raised by wait on a null tensor reference, and
InternalAssertFailure is a firing TORCH_INTERNAL_ASSERT_DEBUG_ONLY. -/
inductive VError
  | InvalidStateError
  | InternalAssertFailure
  deriving DecidableEq

/-- State of a vTensor that the claims touch: whether each owned resource
handle evaluates to true when tested (the handle is allocated), plus the
dirty bitfield.  The boolean truth value of a handle stands in for the
operator bool of the api Resource Buffer and Image types. -/
structure vTensor where
  hasImage : Bool
  hasBuffer : Bool
  hasStaging : Bool
  dirty_ : DirtyFlags
  deriving DecidableEq

/-- The Future of vTensor reduced to its sole data member tensor_ at line
125: a possibly null pointer to the view, modelled as an Option of the
view state.  The access right kAccess is a template parameter in C++ and
is passed explicitly to the operations that consult it. -/
structure Future where
  tensor_ : Option vTensor
  deriving DecidableEq

/-- A mapped payload: which representation had its memory mapped and under
which access right (the typed pointer and extent are outside the claims). -/
structure Payload where
  rep : Rep
  access : Access.Flags
  deriving DecidableEq

/-- Future constructor from a view pointer, lines 192 to 199: stores the
pointer and checks it with TORCH_INTERNAL_ASSERT_DEBUG_ONLY, a macro that
raises an internal assertion failure only in builds with debug assertions
enabled and expands to nothing in release builds; the debugAsserts
argument selects the build flavor. -/
def Future.ctor (debugAsserts : Bool) (tensor : Option vTensor) :
    Except VError Future :=
  cond (debugAsserts && tensor.isNone)
    (Except.error VError.InternalAssertFailure)
    (Except.ok ⟨tensor⟩)

/-- Move constructor, lines 201 to 206: the new Future takes tensor_ and
the source is left null.  Returns the new Future paired with the moved
from source. -/
def Future.moveCtor (f : Future) : Future × Future :=
  (⟨f.tensor_⟩, ⟨none⟩)

/-- Move assignment, lines 208 to 215, modelled on a store of Future
states so that aliasing (self assignment) is representable: position dst
receives the tensor_ held at position src, then position src is set to
null, in that order, exactly as the two statements of the operator. -/
def moveAssignIdx (s : List (Option vTensor)) (dst src : Nat) :
    List (Option vTensor) :=
  (s.set dst (s.getD src none)).set src none

/-- Resolution of the host facing representation inside wait, lines 250
to 253: the staging buffer when the view owns one, else the device
buffer. -/
def resolveHostRep (t : vTensor) : Rep :=
  cond t.hasStaging Rep.staging Rep.buffer

/-- wait, lines 242 to 256: TORCH_CHECK that tensor_ is non null (else
InvalidStateError), then map the memory of the staging buffer if present
else of the device buffer.  The body reads staging_ and buffer_ only and
never touches the dirty bitfield, so the view state is returned unchanged
alongside the payload. -/
def Future.wait (f : Future) (kAccess : Access.Flags) :
    Except VError (Payload × vTensor) :=
  match f.tensor_ with
  | none => Except.error VError.InvalidStateError
  | some t => Except.ok (⟨resolveHostRep t, kAccess⟩, t)

/-- Destructor, lines 235 to 240: tests a live tensor_ together with a
Write access right, and the body of the branch is empty because the
upload call is commented out; the view state t is therefore returned
unchanged on every path. -/
def Future.dtorTensorEffect (f : Future) (kAccess : Access.Flags)
    (t : vTensor) : vTensor :=
  cond (f.tensor_.isSome && kAccess.write) t t

/-- Modelled from the spec: the is convertible constraint of the
converting move operations at lines 82 to 102 instantiates Access.Pointer
from the api Resource header, a file absent from src; the spec states the
conversion is allowed exactly when the destination access right is a
subset of the source access right. -/
def Future.is_convertible (srcA dstA : Access.Flags) : Bool :=
  Access.Flags.subset dstA srcA

/-- Converting move constructor, lines 217 to 223, guarded by the
is convertible constraint: on success the destination takes tensor_ and
the source is left null; otherwise the construction is rejected. -/
def Future.convertingMoveCtor (srcA dstA : Access.Flags) (f : Future) :
    Option (Future × Future) :=
  cond (Future.is_convertible srcA dstA) (some (⟨f.tensor_⟩, ⟨none⟩)) none

/-- Converting move assignment, lines 225 to 233, guarded by the same
constraint: on success the destination takes tensor_ and the source is
left null. -/
def Future.convertingMoveAssign (srcA dstA : Access.Flags)
    (_dst src : Future) : Option (Future × Future) :=
  cond (Future.is_convertible srcA dstA) (some (⟨src.tensor_⟩, ⟨none⟩)) none

/-- Modelled from the spec: the synchronization algorithm of section 4.2,
whose implementation lives in vTensor.cpp, a file absent from src.  Write
intent clears the target bit and sets both sibling bits unconditionally;
otherwise Read intent on a stale target refreshes it from a clean sibling
when one exists and clears the target bit, while a conversion that cannot
run leaves the dirty bits unchanged as section 7 requires. -/
def sync (d : DirtyFlags) (r : Rep) (a : Access.Flags) : DirtyFlags :=
  cond a.write
    (((d.setRep r false).setRep (siblings r).1 true).setRep (siblings r).2 true)
    (cond (a.read && d.get r &&
        (!(d.get (siblings r).1) || !(d.get (siblings r).2)))
      (d.setRep r false)
      d)

/-- Modelled from the spec: at construction the tensor is uninitialized
and no representation is authoritative until first written (invariant I1
and the glossary entry for authoritative), so every dirty bit starts
set. -/
def constructionDirty : DirtyFlags := ⟨true, true, true⟩

/-- Folds the synchronization step over a sequence of accesses, each a
target representation paired with an access flag set. -/
def runAccesses (d : DirtyFlags) (l : List (Rep × Access.Flags)) :
    DirtyFlags :=
  l.foldl (fun d p => sync d p.1 p.2) d

/-- Value category of the expression an accessor is invoked on. -/
inductive ValueCategory
  | lvalue
  | rvalue
  deriving DecidableEq, Fintype

/-- The accessor families of the view, each in a const and a mutable
form: host access, device buffer access, device image access. -/
inductive AccessorFamily
  | hostConst
  | hostMut
  | bufferConst
  | bufferMut
  | imageConst
  | imageMut
  deriving DecidableEq, Fintype

/-- Transcribed from the overload declarations of the view: the lvalue
qualified overloads of host, buffer and image are declared at lines 132
to 146, and every rvalue qualified overload is deleted at lines 158 to
168. -/
def accessorDeclared : AccessorFamily → ValueCategory → Bool
  | AccessorFamily.hostConst, ValueCategory.lvalue => true
  | AccessorFamily.hostConst, ValueCategory.rvalue => false
  | AccessorFamily.hostMut, ValueCategory.lvalue => true
  | AccessorFamily.hostMut, ValueCategory.rvalue => false
  | AccessorFamily.bufferConst, ValueCategory.lvalue => true
  | AccessorFamily.bufferConst, ValueCategory.rvalue => false
  | AccessorFamily.bufferMut, ValueCategory.lvalue => true
  | AccessorFamily.bufferMut, ValueCategory.rvalue => false
  | AccessorFamily.imageConst, ValueCategory.lvalue => true
  | AccessorFamily.imageConst, ValueCategory.rvalue => false
  | AccessorFamily.imageMut, ValueCategory.lvalue => true
  | AccessorFamily.imageMut, ValueCategory.rvalue => false

/-- Transcribed from the wait declarations of the Future: wait is
declared lvalue qualified at line 110 and the rvalue qualified overload
is deleted at line 118. -/
def waitDeclared : ValueCategory → Bool
  | ValueCategory.lvalue => true
  | ValueCategory.rvalue => false

/-- A synchronization step never raises the dirty count above two. -/
theorem sync_preserves_le_two :
    ∀ (d : DirtyFlags) (r : Rep) (a : Access.Flags),
      countDirty d ≤ 2 → countDirty (sync d r a) ≤ 2 := by
  decide

/-- A synchronization step with Write intent leaves exactly the two
sibling bits dirty. -/
theorem sync_write_le_two :
    ∀ (d : DirtyFlags) (r : Rep) (a : Access.Flags),
      a.write = true → countDirty (sync d r a) ≤ 2 := by
  decide

/-- Folding synchronization steps preserves a dirty count of at most
two. -/
theorem runAccesses_preserves_le_two :
    ∀ (l : List (Rep × Access.Flags)) (d : DirtyFlags),
      countDirty d ≤ 2 → countDirty (runAccesses d l) ≤ 2 := by
  intro l
  induction l with
  | nil => intro d h; exact h
  | cons p rest ih =>
      intro d h
      exact ih (sync d p.1 p.2) (sync_preserves_le_two d p.1 p.2 h)

/-- Once a sequence of accesses contains a Write intent, the final dirty
count is at most two from any starting state. -/
theorem anyWrite_runAccesses_le_two :
    ∀ (l : List (Rep × Access.Flags)) (d : DirtyFlags),
      l.any (fun p => p.2.write) = true →
      countDirty (runAccesses d l) ≤ 2 := by
  intro l
  induction l with
  | nil => intro d h; simp at h
  | cons p rest ih =>
      intro d h
      by_cases hw : p.2.write = true
      · exact runAccesses_preserves_le_two rest (sync d p.1 p.2)
          (sync_write_le_two d p.1 p.2 hw)
      · have hw2 : p.2.write = false := by
          cases hpw : p.2.write
          · rfl
          · exact absurd hpw hw
        have hr : rest.any (fun q => q.2.write) = true := by
          rw [List.any_cons, hw2] at h
          simpa using h
        exact ih (sync d p.1 p.2) hr

/-- Setting position i of a store to none and reading back position j
yields none when j is i and the prior entry otherwise, with none also
returned out of range. -/
theorem set_none_getD :
    ∀ (s : List (Option vTensor)) (i j : Nat),
      (s.set i none).getD j none = if j = i then none else s.getD j none := by
  intro s
  induction s with
  | nil =>
      intro i j
      simp [List.getD]
  | cons x xs ih =>
      intro i j
      cases i with
      | zero =>
          cases j with
          | zero => simp
          | succ j2 => simp [List.getD]
      | succ i2 =>
          cases j with
          | zero => simp [List.getD]
          | succ j2 =>
              have h := ih i2 j2
              by_cases hj : j2 = i2
              · simp [List.getD, hj] at h ⊢
                exact h
              · have hj2 : ¬ j2 + 1 = i2 + 1 := by omega
                simp [List.getD, hj, hj2] at h ⊢
                exact h

/-- Claim C1: after move constructing Future B from Future A, a wait on A
fails with InvalidStateError, while B holds exactly the reference A
held. -/
theorem c1_moved_from_future_wait_fails :
    ∀ (f : Future) (a : Access.Flags),
      Future.wait (Future.moveCtor f).2 a =
          Except.error VError.InvalidStateError ∧
        (Future.moveCtor f).1.tensor_ = f.tensor_ :=
  fun _ _ => ⟨rfl, rfl⟩

/-- Claim C2: waiting on a valid Future maps the host staging buffer when
the view owns one and the device buffer otherwise, and no other
representation is ever mapped for host access. -/
theorem c2_wait_maps_staging_else_buffer :
    ∀ (t : vTensor) (a : Access.Flags),
      Future.wait ⟨some t⟩ a =
        Except.ok (⟨cond t.hasStaging Rep.staging Rep.buffer, a⟩, t) :=
  fun _ _ => rfl

/-- Claim C3: a synchronization step with Write intent on representation
r leaves r clean and both siblings dirty, regardless of the prior
flags. -/
theorem c3_write_clears_target_sets_siblings :
    ∀ (d : DirtyFlags) (r : Rep) (rd : Bool),
      DirtyFlags.get (sync d r ⟨rd, true⟩) r = false ∧
        DirtyFlags.get (sync d r ⟨rd, true⟩) (siblings r).1 = true ∧
        DirtyFlags.get (sync d r ⟨rd, true⟩) (siblings r).2 = true := by
  decide

/-- Counterexample to claim C4 as stated: on a freshly constructed view a
single read only access completes with all three dirty flags still set,
because no clean sibling exists to refresh from. -/
theorem c4_counterexample :
    ¬ countDirty (runAccesses constructionDirty [(Rep.buffer, Access.Read)]) ≤ 2 := by
  decide

/-- Claim C4 amended: after any single access call completes on a view
that has received at least one Write intent access, at most two of the
three dirty flags are true. -/
theorem c4_written_at_most_two_dirty (l : List (Rep × Access.Flags))
    (h : l.any (fun p => p.2.write) = true) :
    countDirty (runAccesses constructionDirty l) ≤ 2 :=
  anyWrite_runAccesses_le_two l constructionDirty h

/-- Witness for claim C4: a concrete sequence holding one write access. -/
theorem c4_witness :
    ([(Rep.buffer, Access.Write)].any (fun p => p.2.write) = true) ∧
      countDirty (runAccesses constructionDirty [(Rep.buffer, Access.Write)]) ≤ 2 :=
  ⟨by decide, c4_written_at_most_two_dirty [(Rep.buffer, Access.Write)] (by decide)⟩

/-- Counterexample to claim C5 as stated: wait returns the view with its
dirty flags unchanged even when the section 4.2 synchronization step on
the resolved representation would change them, so wait performs no
synchronization. -/
theorem c5_counterexample :
    Future.wait ⟨some ⟨true, true, true, ⟨false, false, true⟩⟩⟩ Access.Read =
        Except.ok (⟨Rep.staging, Access.Read⟩,
          ⟨true, true, true, ⟨false, false, true⟩⟩) ∧
      sync ⟨false, false, true⟩
          (resolveHostRep ⟨true, true, true, ⟨false, false, true⟩⟩)
          Access.Read ≠ ⟨false, false, true⟩ :=
  ⟨rfl, by decide⟩

/-- Claim C5 amended: wait fails with InvalidStateError on a moved from
Future; otherwise it resolves the host facing representation as staging
if present else device buffer, maps its memory and returns the payload
carrying the requested access right, leaving the dirty flags untouched:
the synchronization of section 4.2 is not performed inside wait. -/
theorem c5_wait_resolves_and_maps_without_sync :
    ∀ (t : vTensor) (a : Access.Flags),
      Future.wait ⟨none⟩ a = Except.error VError.InvalidStateError ∧
        Future.wait ⟨some t⟩ a = Except.ok (⟨resolveHostRep t, a⟩, t) :=
  fun _ _ => ⟨rfl, rfl⟩

/-- Claim C6: at the failing input, a live Write Future reaching its
destructor, the destructor leaves the view state unchanged; indeed the
destructor effect is the identity on every input, because the upload call
in its body is commented out. -/
theorem c6_dtor_is_noop :
    (∀ (f : Future) (a : Access.Flags) (t : vTensor),
        Future.dtorTensorEffect f a t = t) ∧
      Future.dtorTensorEffect ⟨some ⟨false, true, true, ⟨true, true, false⟩⟩⟩
          Access.Write ⟨false, true, true, ⟨true, true, false⟩⟩ =
        ⟨false, true, true, ⟨true, true, false⟩⟩ := by
  constructor
  · intro f a t
    unfold Future.dtorTensorEffect
    cases f.tensor_.isSome && a.write <;> rfl
  · rfl

/-- Counterexample to claim C7 as stated: with debug assertions disabled,
construction from a null view pointer succeeds instead of failing. -/
theorem c7_counterexample :
    Future.ctor false none = Except.ok ⟨none⟩ ∧
      Future.ctor false none ≠ Except.error VError.InvalidStateError :=
  ⟨rfl, fun h => nomatch h⟩

/-- Claim C7 amended: the null check at Future construction is a debug
only internal assertion: it fires only in builds with debug assertions
enabled, and in release builds the Future is constructed holding a null
reference, the failure surfacing as InvalidStateError only at the later
wait. -/
theorem c7_null_check_is_debug_only :
    ∀ (t : vTensor) (a : Access.Flags),
      Future.ctor true none = Except.error VError.InternalAssertFailure ∧
        Future.ctor false none = Except.ok ⟨none⟩ ∧
        Future.ctor true (some t) = Except.ok ⟨some t⟩ ∧
        Future.ctor false (some t) = Except.ok ⟨some t⟩ ∧
        Future.wait ⟨none⟩ a = Except.error VError.InvalidStateError :=
  fun _ _ => ⟨rfl, rfl, rfl, rfl, rfl⟩

/-- Claim C8: a converting move construction or assignment succeeds
exactly when the destination access right is a subset of the source
access right; a read write source may downgrade to a read only
destination, and a read only source can never produce a write capable
destination. -/
theorem c8_conversion_iff_subset :
    (∀ (sa da : Access.Flags) (f : Future),
        (Future.convertingMoveCtor sa da f).isSome =
          Access.Flags.subset da sa) ∧
      (∀ (sa da : Access.Flags) (dst src : Future),
        (Future.convertingMoveAssign sa da dst src).isSome =
          Access.Flags.subset da sa) ∧
      Future.is_convertible Access.ReadWrite Access.Read = true ∧
      Future.is_convertible Access.Read Access.ReadWrite = false ∧
      Future.is_convertible Access.Read Access.Write = false ∧
      (∀ (f : Future),
        Future.convertingMoveCtor Access.ReadWrite Access.Read f =
          some (⟨f.tensor_⟩, ⟨none⟩)) := by
  refine ⟨?_, ?_, by decide, by decide, by decide, fun f => rfl⟩
  · intro sa da f
    unfold Future.convertingMoveCtor Future.is_convertible
    cases Access.Flags.subset da sa <;> rfl
  · intro sa da dst src
    unfold Future.convertingMoveAssign Future.is_convertible
    cases Access.Flags.subset da sa <;> rfl

/-- Claim C9: every rvalue qualified accessor overload of the view is
deleted while the lvalue qualified ones are declared, and wait is
declared only for an lvalue Future. -/
theorem c9_rvalue_accessors_deleted :
    (∀ fam : AccessorFamily,
        accessorDeclared fam ValueCategory.rvalue = false) ∧
      (∀ fam : AccessorFamily,
        accessorDeclared fam ValueCategory.lvalue = true) ∧
      waitDeclared ValueCategory.lvalue = true ∧
      waitDeclared ValueCategory.rvalue = false := by
  decide

/-- Claim C10: self move assignment of a Future nulls the stored
reference, a subsequent wait on it fails with InvalidStateError, and
every other position of the store is unchanged, so no other Future
received the reference. -/
theorem c10_self_move_assign_invalidates :
    ∀ (s : List (Option vTensor)) (i : Nat) (a : Access.Flags) (j : Nat),
      Future.wait ⟨(moveAssignIdx s i i).getD i none⟩ a =
          Except.error VError.InvalidStateError ∧
        (moveAssignIdx s i i).getD j none =
          if j = i then none else s.getD j none := by
  intro s i a j
  have hm : moveAssignIdx s i i = s.set i none := List.set_set _ _ _ _
  constructor
  · have hg : (moveAssignIdx s i i).getD i none = none := by
      rw [hm, set_none_getD]
      simp
    rw [hg]
    rfl
  · rw [hm]
    exact set_none_getD s i j

end ops
